import Mathlib

/-!
Verification of the AlohoPass browser-extension subsystem.

The development shallowly embeds the content script's form classifier
(`isLoginOrSignupForm`, `detectFormType`, `extractFormFields`), the autofill
and submit handlers (`autofillForm`, `createNewPasswordEntry`,
`handleFormSubmit`), the background message router and its handlers
(`getPasswords`, `createPassword`, `searchPasswords`, the dispatch switch),
the native-bridge disconnect handler, and the shell host proxy
(`get_port`, `connect_to_tauri`).

JavaScript strings are modelled as lists of characters; `String.includes`
becomes the decidable list-infix relation, and `toLowerCase` becomes a
character-wise ASCII lowering (the keyword lists and concrete scenarios in
the specification are ASCII-lowercase apart from precomposed accented
letters, which both JavaScript and this model leave unchanged when already
lowercase).
-/

namespace AlohoPass

/-- JavaScript strings, modelled as lists of characters. -/
abbrev Str := List Char

/-- `s.toLowerCase()`: character-wise lowering. -/
def lowerStr (s : Str) : Str := s.map Char.toLower

/-- `hay.includes(pat)`: substring containment, via the list-infix relation. -/
def includesSub (hay pat : Str) : Bool := decide (pat <:+: hay)

/-- One `<input>` element of a form: its `type`, `name` and `placeholder`
attributes. -/
structure FormInput where
  typ : Str
  name : Str
  placeholder : Str
deriving DecidableEq

/-- The markup an `<input>` element contributes to the form's `innerHTML`. -/
def renderInput (i : FormInput) : Str :=
  "<input type=\"".data ++ i.typ ++ "\" name=\"".data ++ i.name ++
    "\" placeholder=\"".data ++ i.placeholder ++ "\">".data

/-- A structural snapshot of a `<form>` element: its visible text nodes and
its `<input>` children (identified below by their index in this list). -/
structure FormElem where
  visibleText : Str
  inputs : List FormInput
deriving DecidableEq

/-- `form.textContent.toLowerCase()`: input elements contribute no text
nodes, so only the visible text remains. -/
def formTextContent (f : FormElem) : Str := lowerStr f.visibleText

/-- `form.innerHTML.toLowerCase()`: the serialized markup contains both the
text nodes and each input element's own markup. -/
def formInnerHTML (f : FormElem) : Str :=
  lowerStr (f.visibleText ++ (f.inputs.map renderInput).flatten)

/-- The login keyword list of `isLoginOrSignupForm`. -/
def loginKeywords : List Str :=
  ["login".data, "signin".data, "sign in".data, "log in".data,
   "iniciar sesión".data, "acceder".data, "entrar".data, "usuario".data,
   "contraseña".data, "password".data]

/-- The signup keyword list of `isLoginOrSignupForm` and `detectFormType`. -/
def signupKeywords : List Str :=
  ["signup".data, "sign up".data, "register".data, "registro".data,
   "registrarse".data, "crear cuenta".data, "nueva cuenta".data,
   "suscribirse".data]

/-- `loginKeywords.some(kw => formText.includes(kw) || formHTML.includes(kw))`. -/
def hasLoginKeywords (f : FormElem) : Bool :=
  loginKeywords.any fun kw =>
    includesSub (formTextContent f) kw || includesSub (formInnerHTML f) kw

/-- `signupKeywords.some(kw => formText.includes(kw) || formHTML.includes(kw))`. -/
def hasSignupKeywords (f : FormElem) : Bool :=
  signupKeywords.any fun kw =>
    includesSub (formTextContent f) kw || includesSub (formInnerHTML f) kw

/-- `form.querySelector('input[type="password"]')` is non-null. -/
def hasPasswordField (f : FormElem) : Bool :=
  f.inputs.any fun i => decide (i.typ = "password".data)

/-- `form.querySelector('input[name*="user"], input[name*="email"], input[name*="login"]')`
is non-null. -/
def hasUsernameField (f : FormElem) : Bool :=
  f.inputs.any fun i =>
    includesSub i.name "user".data || includesSub i.name "email".data ||
      includesSub i.name "login".data

/-- `isLoginOrSignupForm`: candidate test of the classifier. -/
def isLoginOrSignupForm (f : FormElem) : Bool :=
  (hasLoginKeywords f || hasSignupKeywords f) &&
    (hasPasswordField f || hasUsernameField f)

/-- The two form classifications. -/
inductive FormType where
  | login
  | signup
deriving DecidableEq

/-- `detectFormType`: signup wins whenever a signup keyword matches, else
login. -/
def detectFormType (f : FormElem) : FormType :=
  if hasSignupKeywords f then FormType.signup else FormType.login

/-- `form.querySelector(...)` over the form's inputs: index of the first
input matching the predicate. -/
def querySelectInput (f : FormElem) (p : FormInput → Bool) : Option Nat :=
  f.inputs.findIdx? p

/-- The username-role selector chain of `extractFormFields`. -/
def extractUsername (f : FormElem) : Option Nat :=
  (querySelectInput f fun i =>
      includesSub i.name "user".data || includesSub i.name "login".data ||
        includesSub i.name "email".data) <|>
    (querySelectInput f fun i => decide (i.typ = "email".data)) <|>
      (querySelectInput f fun i =>
        includesSub i.placeholder "usuario".data ||
          includesSub i.placeholder "email".data)

/-- The password-role selector of `extractFormFields`. -/
def extractPassword (f : FormElem) : Option Nat :=
  querySelectInput f fun i => decide (i.typ = "password".data)

/-- The email-role selector chain of `extractFormFields`. -/
def extractEmail (f : FormElem) : Option Nat :=
  (querySelectInput f fun i => decide (i.typ = "email".data)) <|>
    (querySelectInput f fun i => includesSub i.name "email".data)

/-- The role map produced by `extractFormFields` (the submit slot selects
button elements, which lie outside the input snapshot and outside every
claim, so it is not modelled). -/
structure FormFields where
  username : Option Nat
  password : Option Nat
  email : Option Nat
deriving DecidableEq

/-- `extractFormFields`: first-match-wins role extraction. -/
def extractFormFields (f : FormElem) : FormFields :=
  { username := extractUsername f
    password := extractPassword f
    email := extractEmail f }

/- ### Substring helper lemmas -/

theorem includesSub_iff (hay pat : Str) : includesSub hay pat = true ↔ pat <:+: hay := by
  simp [includesSub]

theorem isInfix_map_toLower {l₁ l₂ : Str} (h : l₁ <:+: l₂) :
    lowerStr l₁ <:+: lowerStr l₂ := by
  rcases h with ⟨s, t, rfl⟩
  exact ⟨lowerStr s, lowerStr t, by simp [lowerStr]⟩

theorem isInfix_flatten_of_mem {l : Str} {L : List Str} (h : l ∈ L) : l <:+: L.flatten := by
  induction L with
  | nil => cases h
  | cons a t ih =>
    rcases List.mem_cons.mp h with rfl | h'
    · exact ⟨[], t.flatten, by simp⟩
    · rcases ih h' with ⟨s, u, hs⟩
      exact ⟨a ++ s, u, by simp [← hs]⟩

/-- A password-typed input puts the characters `password` into the lowered
`innerHTML` of its form. -/
theorem password_in_innerHTML {f : FormElem} {i : FormInput}
    (hm : i ∈ f.inputs) (ht : i.typ = "password".data) :
    includesSub (formInnerHTML f) "password".data = true := by
  rw [includesSub_iff]
  have h₁ : i.typ <:+: renderInput i := by
    exact ⟨"<input type=\"".data,
      "\" name=\"".data ++ i.name ++ "\" placeholder=\"".data ++
        i.placeholder ++ "\">".data, by simp [renderInput]⟩
  have h₂ : renderInput i <:+: (f.inputs.map renderInput).flatten :=
    isInfix_flatten_of_mem (List.mem_map_of_mem renderInput hm)
  have h₃ : (f.inputs.map renderInput).flatten <:+:
      f.visibleText ++ (f.inputs.map renderInput).flatten :=
    ⟨f.visibleText, [], by simp⟩
  have h₄ : i.typ <:+: f.visibleText ++ (f.inputs.map renderInput).flatten :=
    (h₁.trans h₂).trans h₃
  have h₅ := isInfix_map_toLower h₄
  rw [ht] at h₅
  have hlow : lowerStr "password".data = "password".data := by decide
  rw [hlow] at h₅
  exact h₅

/-- A password-typed input by itself makes `hasPasswordField` true. -/
theorem hasPasswordField_of_mem {f : FormElem} {i : FormInput}
    (hm : i ∈ f.inputs) (ht : i.typ = "password".data) :
    hasPasswordField f = true := by
  simp only [hasPasswordField, List.any_eq_true]
  exact ⟨i, hm, by simp [ht]⟩

/-- A password-typed input by itself makes `hasLoginKeywords` true: the
keyword `password` occurs in the form's markup. -/
theorem hasLoginKeywords_of_password {f : FormElem} {i : FormInput}
    (hm : i ∈ f.inputs) (ht : i.typ = "password".data) :
    hasLoginKeywords f = true := by
  simp only [hasLoginKeywords, List.any_eq_true]
  refine ⟨"password".data, by simp [loginKeywords], ?_⟩
  simp [password_in_innerHTML hm ht]



/-- C2: any form containing a password-type input and no signup keyword in
its text/markup is a candidate and is classified `login`, with no login
keyword required beyond the password field itself (whose markup supplies the
`password` keyword). -/
theorem passwordForm_classified_login (f : FormElem) (i : FormInput)
    (hm : i ∈ f.inputs) (ht : i.typ = "password".data)
    (hns : hasSignupKeywords f = false) :
    isLoginOrSignupForm f = true ∧ detectFormType f = FormType.login := by
  refine ⟨?_, ?_⟩
  · simp [isLoginOrSignupForm, hasLoginKeywords_of_password hm ht,
      hasPasswordField_of_mem hm ht]
  · simp [detectFormType, hns]

theorem passwordForm_classified_login_witness :
    (⟨"password".data, [], []⟩ : FormInput) ∈
        (FormElem.mk [] [⟨"password".data, [], []⟩]).inputs ∧
      hasSignupKeywords (FormElem.mk [] [⟨"password".data, [], []⟩]) = false ∧
      (isLoginOrSignupForm (FormElem.mk [] [⟨"password".data, [], []⟩]) = true ∧
        detectFormType (FormElem.mk [] [⟨"password".data, [], []⟩]) = FormType.login) :=
  ⟨by decide, by decide,
    passwordForm_classified_login (FormElem.mk [] [⟨"password".data, [], []⟩])
      ⟨"password".data, [], []⟩ (by decide) (by decide) (by decide)⟩

/-- C3: any form containing a password-type input and a signup keyword in
its text/markup is a candidate and is classified `signup`, with no
hypothesis about login keywords. -/
theorem signupKeyword_classified_signup (f : FormElem) (i : FormInput) (kw : Str)
    (hm : i ∈ f.inputs) (ht : i.typ = "password".data)
    (hkw : kw ∈ signupKeywords)
    (hc : includesSub (formTextContent f) kw = true ∨
      includesSub (formInnerHTML f) kw = true) :
    isLoginOrSignupForm f = true ∧ detectFormType f = FormType.signup := by
  have hs : hasSignupKeywords f = true := by
    simp only [hasSignupKeywords, List.any_eq_true]
    refine ⟨kw, hkw, ?_⟩
    rcases hc with h | h <;> simp [h]
  refine ⟨?_, ?_⟩
  · simp [isLoginOrSignupForm, hs, hasPasswordField_of_mem hm ht]
  · simp [detectFormType, hs]

theorem signupKeyword_classified_signup_witness :
    (⟨"password".data, [], []⟩ : FormInput) ∈
        (FormElem.mk "crear cuenta — login".data [⟨"password".data, [], []⟩]).inputs ∧
      "crear cuenta".data ∈ signupKeywords ∧
      includesSub (formTextContent
        (FormElem.mk "crear cuenta — login".data [⟨"password".data, [], []⟩]))
        "crear cuenta".data = true ∧
      (isLoginOrSignupForm
          (FormElem.mk "crear cuenta — login".data [⟨"password".data, [], []⟩]) = true ∧
        detectFormType
          (FormElem.mk "crear cuenta — login".data [⟨"password".data, [], []⟩]) =
          FormType.signup) :=
  ⟨by decide, by decide, by decide,
    signupKeyword_classified_signup
      (FormElem.mk "crear cuenta — login".data [⟨"password".data, [], []⟩])
      ⟨"password".data, [], []⟩ "crear cuenta".data (by decide) (by decide)
      (by decide) (Or.inl (by decide))⟩

/-- The concrete scenario of C9: a form with an input named `email`, a
password-type input, and the visible text `Iniciar sesión`. -/
def loginScenarioForm : FormElem :=
  { visibleText := "Iniciar sesión".data
    inputs := [⟨"text".data, "email".data, []⟩, ⟨"password".data, [], []⟩] }

set_option maxRecDepth 40000 in
/-- C9: on the concrete `Iniciar sesión` form, the classifier returns a
candidate classified `login`, with the username role mapped to the
email-named input (index 0) and the password role to the password-type
input (index 1). -/
theorem loginScenario_classification :
    isLoginOrSignupForm loginScenarioForm = true ∧
      detectFormType loginScenarioForm = FormType.login ∧
      (extractFormFields loginScenarioForm).username = some 0 ∧
      (extractFormFields loginScenarioForm).password = some 1 := by
  decide

/- ### Suggestion Controller: autofill and signup submit -/

/-- A selected password suggestion as the autofill handler consumes it
(absent JavaScript fields behave as the empty string). -/
structure PasswordSuggestion where
  title : Str
  username : Str
  password : Str
  email : Str
deriving DecidableEq

/-- One slot of `autofillForm`: when the slot is role-mapped and the
suggestion's field is non-empty (JS truthiness of both operands), assign the
value to the element and dispatch a bubbling `input` event on it. Returns
the assignments made and the elements the event was dispatched on. -/
def fillStep (slot : Option Nat) (v : Str) : List (Nat × Str) × List Nat :=
  match slot with
  | some e => if v = [] then ([], []) else ([(e, v)], [e])
  | none => ([], [])

/-- `autofillForm`: processes the username, password and email slots in
source order; first component collects the value assignments, second the
elements that received a synthetic `input` event. -/
def autofillForm (fields : FormFields) (s : PasswordSuggestion) :
    List (Nat × Str) × List Nat :=
  let u := fillStep fields.username s.username
  let p := fillStep fields.password s.password
  let e := fillStep fields.email s.email
  (u.1 ++ p.1 ++ e.1, u.2 ++ p.2 ++ e.2)

/-- C1: when the role map has both a username and a password element and the
suggestion's username and password are non-empty, `autofillForm` assigns the
suggestion's username to the username element and the suggestion's password
to the password element, and the elements a synthetic `input` event is
dispatched on are exactly the elements written, in order. -/
theorem autofill_fills_and_dispatches (fields : FormFields)
    (s : PasswordSuggestion) (u p : Nat)
    (hu : fields.username = some u) (hp : fields.password = some p)
    (hsu : s.username ≠ []) (hsp : s.password ≠ []) :
    (u, s.username) ∈ (autofillForm fields s).1 ∧
      (p, s.password) ∈ (autofillForm fields s).1 ∧
      (autofillForm fields s).2 = (autofillForm fields s).1.map Prod.fst := by
  have key : ∀ slot v, (fillStep slot v).2 = (fillStep slot v).1.map Prod.fst := by
    intro slot v
    cases slot with
    | none => simp [fillStep]
    | some e =>
      by_cases hv : v = [] <;> simp [fillStep, hv]
  refine ⟨?_, ?_, ?_⟩
  · simp [autofillForm, fillStep, hu, hsu]
  · simp [autofillForm, fillStep, hp, hsp]
  · simp only [autofillForm, List.map_append]
    rw [key, key, key]

/-- Role map of the C1 witness scenario: username is element 0, password is
element 1, no email slot. -/
def fillFields : FormFields := ⟨some 0, some 1, none⟩

/-- Suggestion of the C1 witness scenario. -/
def fillSuggestion : PasswordSuggestion :=
  ⟨"Cuenta principal".data, "alice".data, "s3cret".data, []⟩

theorem autofill_fills_and_dispatches_witness :
    fillFields.username = some 0 ∧ fillFields.password = some 1 ∧
      "alice".data ≠ ([] : Str) ∧ "s3cret".data ≠ ([] : Str) ∧
      (((0 : Nat), "alice".data) ∈ (autofillForm fillFields fillSuggestion).1 ∧
        ((1 : Nat), "s3cret".data) ∈ (autofillForm fillFields fillSuggestion).1 ∧
        (autofillForm fillFields fillSuggestion).2 =
          (autofillForm fillFields fillSuggestion).1.map Prod.fst) :=
  ⟨rfl, rfl, by decide, by decide,
    autofill_fills_and_dispatches fillFields fillSuggestion 0 1 rfl rfl
      (by decide) (by decide)⟩

/-- The payload of a `createPassword` request. -/
structure NewEntry where
  title : Str
  username : Str
  password : Str
  email : Str
  url : Str
  domain : Str
  typ : Str
deriving DecidableEq

/-- The string form of a classification, as stored in `formData.type`. -/
def formTypeStr : FormType → Str
  | FormType.login => "login".data
  | FormType.signup => "signup".data

/-- A classified form as the content script records it: classification, role
map, source URL and domain. -/
structure FormRecord where
  ftype : FormType
  fields : FormFields
  url : Str
  domain : Str

/-- `createNewPasswordEntry`: reads the current values of the role-mapped
fields (`vals` gives each element's value at call time) and builds the
entry; the title is `document.title || domain`, an unmapped field reads as
the empty string. -/
def createNewPasswordEntry (vals : Nat → Str) (docTitle : Str)
    (fd : FormRecord) : NewEntry :=
  { title := if docTitle = [] then fd.domain else docTitle
    username := match fd.fields.username with | some u => vals u | none => []
    password := match fd.fields.password with | some p => vals p | none => []
    email := match fd.fields.email with | some e => vals e | none => []
    url := fd.url
    domain := fd.domain
    typ := formTypeStr fd.ftype }

/-- `handleFormSubmit`: on submit of a signup-classified form, issue the
`createPassword` request built from the current field values; a login
submit issues none. `submitOk` records whether the page's own submission
succeeds — the handler never reads it and performs no rollback. -/
def handleFormSubmit (submitOk : Bool) (vals : Nat → Str) (docTitle : Str)
    (fd : FormRecord) : List NewEntry :=
  match fd.ftype with
  | FormType.signup => [createNewPasswordEntry vals docTitle fd]
  | FormType.login => []

/-- C4: submitting a signup-classified form issues exactly one
`createPassword` request, whose username and password equal the current
values of the role-mapped username and password fields and whose title is
the page's (non-empty) title — for either value of the submit outcome. -/
theorem signupSubmit_creates_once (submitOk : Bool) (vals : Nat → Str)
    (docTitle : Str) (fd : FormRecord) (u p : Nat)
    (hty : fd.ftype = FormType.signup)
    (hu : fd.fields.username = some u) (hp : fd.fields.password = some p)
    (hdt : docTitle ≠ []) :
    ∃ e, handleFormSubmit submitOk vals docTitle fd = [e] ∧
      e.username = vals u ∧ e.password = vals p ∧ e.title = docTitle := by
  refine ⟨createNewPasswordEntry vals docTitle fd, ?_, ?_, ?_, ?_⟩
  · simp [handleFormSubmit, hty]
  · simp [createNewPasswordEntry, hu]
  · simp [createNewPasswordEntry, hp]
  · simp [createNewPasswordEntry, hdt]

/-- The C4 witness scenario: a signup form whose username element 0 holds
`bob` and whose password element 1 holds `hunter2`. -/
def signupRecord : FormRecord :=
  { ftype := FormType.signup
    fields := ⟨some 0, some 1, none⟩
    url := "https://example.com/registro".data
    domain := "example.com".data }

/-- Field values at submit time in the C4 witness scenario. -/
def signupVals : Nat → Str :=
  fun n => if n = 0 then "bob".data else "hunter2".data

theorem signupSubmit_creates_once_witness :
    signupRecord.ftype = FormType.signup ∧
      signupRecord.fields.username = some 0 ∧
      signupRecord.fields.password = some 1 ∧
      "Registro".data ≠ ([] : Str) ∧
      ∃ e, handleFormSubmit false signupVals "Registro".data signupRecord = [e] ∧
        e.username = signupVals 0 ∧ e.password = signupVals 1 ∧
        e.title = "Registro".data :=
  ⟨rfl, rfl, rfl, by decide,
    signupSubmit_creates_once false signupVals "Registro".data signupRecord 0 1
      rfl rfl rfl (by decide)⟩

/- ### Native Bridge: disconnect handling -/

/-- The reconnect delay passed to `setTimeout` in the port's `onDisconnect`
listener, in milliseconds. -/
def RECONNECT_DELAY_MS : Nat := 5000

/-- The background script's connection state: the `isConnected` flag, the
native-messaging port (if any), and the absolute fire times of the pending
reconnect timers. -/
structure BridgeState where
  isConnected : Bool
  port : Option Unit
  reconnectTimers : List Nat
deriving DecidableEq

/-- The `onDisconnect` listener: clear the connection flag, release the
port, and schedule one `connectToTauriApp` call 5000 ms in the future
(`now` is the time the disconnect event is handled). -/
def onPortDisconnect (now : Nat) (s : BridgeState) : BridgeState :=
  { isConnected := false
    port := none
    reconnectTimers := s.reconnectTimers ++ [now + RECONNECT_DELAY_MS] }

/-- C6: a disconnect received in the connected state (no reconnect timer
pending) clears the connection flag, releases the port, and leaves exactly
one scheduled reconnect, firing no earlier than 5000 ms after the
disconnect. -/
theorem disconnect_schedules_single_reconnect (now : Nat) (s : BridgeState)
    (hconn : s.isConnected = true) (hidle : s.reconnectTimers = []) :
    (onPortDisconnect now s).isConnected = false ∧
      (onPortDisconnect now s).port = none ∧
      (onPortDisconnect now s).reconnectTimers.length = 1 ∧
      ∀ t ∈ (onPortDisconnect now s).reconnectTimers, now + 5000 ≤ t := by
  refine ⟨rfl, rfl, ?_, ?_⟩
  · simp [onPortDisconnect, hidle]
  · intro t ht
    simp [onPortDisconnect, hidle] at ht
    simp [ht, RECONNECT_DELAY_MS]

theorem disconnect_schedules_single_reconnect_witness :
    (BridgeState.mk true (some ()) []).isConnected = true ∧
      (BridgeState.mk true (some ()) []).reconnectTimers = [] ∧
      ((onPortDisconnect 100 (BridgeState.mk true (some ()) [])).isConnected = false ∧
        (onPortDisconnect 100 (BridgeState.mk true (some ()) [])).port = none ∧
        (onPortDisconnect 100 (BridgeState.mk true (some ()) [])).reconnectTimers.length = 1 ∧
        ∀ t ∈ (onPortDisconnect 100 (BridgeState.mk true (some ()) [])).reconnectTimers,
          100 + 5000 ≤ t) :=
  ⟨rfl, rfl,
    disconnect_schedules_single_reconnect 100 (BridgeState.mk true (some ()) [])
      rfl rfl⟩

/- ### Host Proxy (connect-to-tauri.sh) -/

/-- `get_port`: the content of the port file when present, else the literal
default `12345`. -/
def getPort (portFileContent : Option Str) : Str :=
  match portFileContent with
  | some content => content
  | none => "12345".data

/-- Outcome of one run of `connect_to_tauri`: the probed host and port, the
lines written to the error stream, the exit status (`none` means the script
replaced itself with the relay and keeps running), and how many
reachability probes it performed. -/
structure ProxyResult where
  targetHost : Str
  targetPort : Str
  stderrLines : List Str
  exitCode : Option Nat
  probes : Nat
deriving DecidableEq

/-- `connect_to_tauri`: read the port, log the attempt, probe
`host:port` once with `nc -z`; on failure print the three diagnostic lines
and exit 1, on success exec the relay. -/
def connectToTauri (reachable : Str → Str → Bool) (host : Str)
    (portFileContent : Option Str) (portFilePath : Str) : ProxyResult :=
  let port := getPort portFileContent
  let pre : List Str :=
    ["🔌 AlohoPass: Conectando a ".data ++ host ++ ":".data ++ port]
  if reachable host port then
    { targetHost := host
      targetPort := port
      stderrLines := pre ++
        ["🔌 AlohoPass: Conectado exitosamente a ".data ++ host ++ ":".data ++ port]
      exitCode := none
      probes := 1 }
  else
    { targetHost := host
      targetPort := port
      stderrLines := pre ++
        ["Error: No se puede conectar a ".data ++ host ++ ":".data ++ port,
         "Asegúrate de que la aplicación Tauri esté ejecutándose".data,
         "Puerto leído desde: ".data ++ portFilePath]
      exitCode := some 1
      probes := 1 }

/-- C7: with no port file the proxy targets port `12345`; when the probe
fails it performs exactly one probe, exits with status 1, and its error
stream names the remote host and port on one line and the port-file path on
another. -/
theorem proxy_default_port_and_failure (reachable : Str → Str → Bool)
    (host : Str) (portFilePath : Str)
    (hunreach : reachable host "12345".data = false) :
    (connectToTauri reachable host none portFilePath).targetPort = "12345".data ∧
      (connectToTauri reachable host none portFilePath).exitCode = some 1 ∧
      (connectToTauri reachable host none portFilePath).probes = 1 ∧
      (∃ line ∈ (connectToTauri reachable host none portFilePath).stderrLines,
        host <:+: line ∧ "12345".data <:+: line) ∧
      ∃ line ∈ (connectToTauri reachable host none portFilePath).stderrLines,
        portFilePath <:+: line := by
  have hport : getPort none = "12345".data := rfl
  refine ⟨?_, ?_, ?_, ?_, ?_⟩
  · simp [connectToTauri, hport, hunreach]
  · simp [connectToTauri, hport, hunreach]
  · simp [connectToTauri, hport, hunreach]
  · refine ⟨"Error: No se puede conectar a ".data ++ host ++ ":".data ++
      "12345".data, ?_, ?_, ?_⟩
    · simp [connectToTauri, hport, hunreach]
    · exact ⟨"Error: No se puede conectar a ".data, ":".data ++ "12345".data,
        by simp⟩
    · exact ⟨"Error: No se puede conectar a ".data ++ host ++ ":".data, [],
        by simp⟩
  · refine ⟨"Puerto leído desde: ".data ++ portFilePath, ?_, ?_⟩
    · simp [connectToTauri, hport, hunreach]
    · exact ⟨"Puerto leído desde: ".data, [], by simp⟩

theorem proxy_default_port_and_failure_witness :
    (fun _ _ => false : Str → Str → Bool) "127.0.0.1".data "12345".data = false ∧
      ((connectToTauri (fun _ _ => false) "127.0.0.1".data none
          "/alohopass/.alohopass_port".data).targetPort = "12345".data ∧
        (connectToTauri (fun _ _ => false) "127.0.0.1".data none
          "/alohopass/.alohopass_port".data).exitCode = some 1 ∧
        (connectToTauri (fun _ _ => false) "127.0.0.1".data none
          "/alohopass/.alohopass_port".data).probes = 1 ∧
        (∃ line ∈ (connectToTauri (fun _ _ => false) "127.0.0.1".data none
            "/alohopass/.alohopass_port".data).stderrLines,
          "127.0.0.1".data <:+: line ∧ "12345".data <:+: line) ∧
        ∃ line ∈ (connectToTauri (fun _ _ => false) "127.0.0.1".data none
            "/alohopass/.alohopass_port".data).stderrLines,
          "/alohopass/.alohopass_port".data <:+: line) :=
  ⟨rfl,
    proxy_default_port_and_failure (fun _ _ => false) "127.0.0.1".data
      "/alohopass/.alohopass_port".data rfl⟩

/- ### Message Router (background script) -/

/-- A stored password entry, in the shape `getMockPasswords` builds. -/
structure PasswordEntry where
  id : Str
  title : Str
  username : Str
  password : Str
  email : Str
  url : Str
  domain : Str
  category : Str
  created_at : Str
  updated_at : Str
deriving DecidableEq

/-- `getMockPasswords`: the two hardcoded example entries for a domain
(`now` is the ISO timestamp `new Date().toISOString()` produces). -/
def getMockPasswords (domain now : Str) : List PasswordEntry :=
  [{ id := "1".data
     title := "Cuenta principal".data
     username := "usuario@ejemplo.com".data
     password := "********".data
     email := "usuario@ejemplo.com".data
     url := "https://".data ++ domain
     domain := domain
     category := "Personal".data
     created_at := now
     updated_at := now },
   { id := "2".data
     title := "Cuenta de trabajo".data
     username := "trabajo@empresa.com".data
     password := "********".data
     email := "trabajo@empresa.com".data
     url := "https://".data ++ domain
     domain := domain
     category := "Trabajo".data
     created_at := now
     updated_at := now }]

/-- The background script's in-memory connection state. -/
structure BgState where
  isConnected : Bool
  connectionPort : Option Unit
deriving DecidableEq

/-- A message posted over the native-messaging port. -/
inductive NativeOut where
  | getPasswordsMsg (domain formType : Str)
  | createPasswordMsg (entry : NewEntry)
  | searchPasswordsMsg (query : Str)
deriving DecidableEq

/-- A response object passed to `sendResponse` (fields a handler does not
set are `none`, mirroring absent JavaScript object fields). -/
structure JsResponse where
  connected : Option Bool := none
  success : Option Bool := none
  error : Option Str := none
  passwords : Option (List PasswordEntry) := none
deriving DecidableEq

/-- `getPasswords` handler: refuse when disconnected; otherwise post a
`get_passwords` message over the port and — after a fixed delay — respond
with the mock password list (the code's own comment marks this as
placeholder for relaying the real reply). Returns the state after the call,
the posted messages, and the response. -/
def getPasswords (st : BgState) (now domain formType : Str) :
    BgState × List NativeOut × JsResponse :=
  if st.isConnected = false then
    (st, [], { success := some false
               error := some "No conectado a la aplicación Tauri".data
               passwords := some [] })
  else
    match st.connectionPort with
    | some _ =>
        (st, [NativeOut.getPasswordsMsg domain formType],
          { success := some true
            passwords := some (getMockPasswords domain now) })
    | none =>
        (st, [], { success := some false
                   error := some "Puerto de conexión no disponible".data
                   passwords := some [] })

/-- `createPassword` handler: refuse when disconnected; otherwise post a
`create_password` message and respond with a simulated success. -/
def createPassword (st : BgState) (entry : NewEntry) :
    BgState × List NativeOut × JsResponse :=
  if st.isConnected = false then
    (st, [], { success := some false
               error := some "No conectado a la aplicación Tauri".data })
  else
    match st.connectionPort with
    | some _ =>
        (st, [NativeOut.createPasswordMsg entry], { success := some true })
    | none =>
        (st, [], { success := some false
                   error := some "Puerto de conexión no disponible".data })

/-- `searchPasswords` handler: refuse when disconnected; otherwise post a
`search_passwords` message and respond with the mock list for domain `*`. -/
def searchPasswords (st : BgState) (now query : Str) :
    BgState × List NativeOut × JsResponse :=
  if st.isConnected = false then
    (st, [], { success := some false
               error := some "No conectado a la aplicación Tauri".data
               passwords := some [] })
  else
    match st.connectionPort with
    | some _ =>
        (st, [NativeOut.searchPasswordsMsg query],
          { success := some true
            passwords := some (getMockPasswords "*".data now) })
    | none =>
        (st, [], { success := some false
                   error := some "Puerto de conexión no disponible".data
                   passwords := some [] })

/-- An inbound runtime message, with the fields the recognized actions
read. -/
structure RouterRequest where
  action : Str
  domain : Str := []
  formType : Str := []
  entry : NewEntry := ⟨[], [], [], [], [], [], []⟩
  query : Str := []

/-- The `onMessage` dispatch switch of `setupMessageListeners`. Every branch
answers through `sendResponse`; the default branch answers the structured
`Acción no reconocida` failure. -/
def dispatchMessage (st : BgState) (now : Str) (req : RouterRequest) :
    BgState × List NativeOut × JsResponse :=
  if req.action = "checkConnection".data then
    (st, [], { connected := some st.isConnected })
  else if req.action = "getPasswords".data then
    getPasswords st now req.domain req.formType
  else if req.action = "createPassword".data then
    createPassword st req.entry
  else if req.action = "searchPasswords".data then
    searchPasswords st now req.query
  else
    (st, [], { success := some false
               error := some "Acción no reconocida".data })

/-- C8 counterexample: the router's default branch answers a structured
failure, but its error string is the Spanish `Acción no reconocida`, not
the literal `unrecognized action` the claim quotes. -/
theorem unrecognizedAction_spanish_error :
    ((dispatchMessage ⟨true, some ()⟩ [] { action := "frobnicate".data }).2.2.success =
        some false ∧
      (dispatchMessage ⟨true, some ()⟩ [] { action := "frobnicate".data }).2.2.error =
        some "Acción no reconocida".data) ∧
      (dispatchMessage ⟨true, some ()⟩ [] { action := "frobnicate".data }).2.2.error ≠
        some "unrecognized action".data := by
  decide

/-- C8 (amended): any inbound message whose action is none of
`checkConnection`, `getPasswords`, `createPassword`, `searchPasswords` is
answered with `{success: false, error: "Acción no reconocida"}`, with no
state change and no message to the native port; the dispatch is a total
function, so no fault escapes it. -/
theorem unrecognizedAction_structured_failure (st : BgState) (now : Str)
    (req : RouterRequest)
    (h : req.action ∉ ["checkConnection".data, "getPasswords".data,
      "createPassword".data, "searchPasswords".data]) :
    dispatchMessage st now req =
      (st, [], { success := some false
                 error := some "Acción no reconocida".data }) := by
  simp only [List.mem_cons, List.not_mem_nil, or_false, not_or] at h
  obtain ⟨h1, h2, h3, h4⟩ := h
  simp [dispatchMessage, h1, h2, h3, h4]

theorem unrecognizedAction_structured_failure_witness :
    ("syncVault".data ∉ ["checkConnection".data, "getPasswords".data,
        "createPassword".data, "searchPasswords".data]) ∧
      dispatchMessage ⟨false, none⟩ [] { action := "syncVault".data } =
        (⟨false, none⟩, [], { success := some false
                              error := some "Acción no reconocida".data }) :=
  ⟨by decide,
    unrecognizedAction_structured_failure ⟨false, none⟩ []
      { action := "syncVault".data } (by decide)⟩

/-- C10: while the connection flag is down, each of the three forwarding
handlers answers success `false` with a non-empty error (the two
list-returning handlers also answer an empty password list), posts nothing
to the native port, and leaves the connection state unchanged. -/
theorem disconnected_requests_fail (st : BgState)
    (now domain formType query : Str) (entry : NewEntry)
    (h : st.isConnected = false) :
    ((getPasswords st now domain formType).1 = st ∧
      (getPasswords st now domain formType).2.1 = [] ∧
      (getPasswords st now domain formType).2.2.success = some false ∧
      (∃ e, (getPasswords st now domain formType).2.2.error = some e ∧ e ≠ []) ∧
      (getPasswords st now domain formType).2.2.passwords = some []) ∧
    ((createPassword st entry).1 = st ∧
      (createPassword st entry).2.1 = [] ∧
      (createPassword st entry).2.2.success = some false ∧
      ∃ e, (createPassword st entry).2.2.error = some e ∧ e ≠ []) ∧
    ((searchPasswords st now query).1 = st ∧
      (searchPasswords st now query).2.1 = [] ∧
      (searchPasswords st now query).2.2.success = some false ∧
      (∃ e, (searchPasswords st now query).2.2.error = some e ∧ e ≠ []) ∧
      (searchPasswords st now query).2.2.passwords = some []) := by
  refine ⟨⟨?_, ?_, ?_, ?_, ?_⟩, ⟨?_, ?_, ?_, ?_⟩, ⟨?_, ?_, ?_, ?_, ?_⟩⟩ <;>
    simp [getPasswords, createPassword, searchPasswords, h]

theorem disconnected_requests_fail_witness :
    (BgState.mk false none).isConnected = false ∧
      ((getPasswords ⟨false, none⟩ [] "example.com".data "login".data).1 =
          ⟨false, none⟩ ∧
        (getPasswords ⟨false, none⟩ [] "example.com".data "login".data).2.1 = [] ∧
        (getPasswords ⟨false, none⟩ [] "example.com".data "login".data).2.2.success =
          some false ∧
        (∃ e, (getPasswords ⟨false, none⟩ [] "example.com".data
          "login".data).2.2.error = some e ∧ e ≠ []) ∧
        (getPasswords ⟨false, none⟩ [] "example.com".data "login".data).2.2.passwords =
          some []) ∧
      ((createPassword ⟨false, none⟩ ⟨[], [], [], [], [], [], []⟩).1 =
          ⟨false, none⟩ ∧
        (createPassword ⟨false, none⟩ ⟨[], [], [], [], [], [], []⟩).2.1 = [] ∧
        (createPassword ⟨false, none⟩ ⟨[], [], [], [], [], [], []⟩).2.2.success =
          some false ∧
        ∃ e, (createPassword ⟨false, none⟩
          ⟨[], [], [], [], [], [], []⟩).2.2.error = some e ∧ e ≠ []) ∧
      ((searchPasswords ⟨false, none⟩ [] "q".data).1 = ⟨false, none⟩ ∧
        (searchPasswords ⟨false, none⟩ [] "q".data).2.1 = [] ∧
        (searchPasswords ⟨false, none⟩ [] "q".data).2.2.success = some false ∧
        (∃ e, (searchPasswords ⟨false, none⟩ [] "q".data).2.2.error =
          some e ∧ e ≠ []) ∧
        (searchPasswords ⟨false, none⟩ [] "q".data).2.2.passwords = some []) :=
  ⟨rfl,
    disconnected_requests_fail ⟨false, none⟩ [] "example.com".data
      "login".data "q".data ⟨[], [], [], [], [], [], []⟩ rfl⟩

/-- A vault holding a single stored entry for `example.com`, for comparison
with what the handler actually returns. -/
def exampleVault : List PasswordEntry :=
  [{ id := "9".data
     title := "Example login".data
     username := "alice@example.com".data
     password := "s3cret".data
     email := "alice@example.com".data
     url := "https://example.com".data
     domain := "example.com".data
     category := "Personal".data
     created_at := "2026-01-01T00:00:00.000Z".data
     updated_at := "2026-01-01T00:00:00.000Z".data }]

/-- C5, evaluated at the failing input: while connected, `getPasswords`
does forward a `get_passwords` message over the native port, but its answer
to the caller is the hardcoded mock list — it never relays the vault's
reply, so against a vault holding `exampleVault` the returned list differs
from the vault's stored entries. -/
theorem getPasswords_answers_mock_not_vault :
    (getPasswords ⟨true, some ()⟩ "2026-01-01T00:00:00.000Z".data
        "example.com".data "login".data).2.1 =
      [NativeOut.getPasswordsMsg "example.com".data "login".data] ∧
    (getPasswords ⟨true, some ()⟩ "2026-01-01T00:00:00.000Z".data
        "example.com".data "login".data).2.2.success = some true ∧
    (getPasswords ⟨true, some ()⟩ "2026-01-01T00:00:00.000Z".data
        "example.com".data "login".data).2.2.passwords =
      some (getMockPasswords "example.com".data
        "2026-01-01T00:00:00.000Z".data) ∧
    (getPasswords ⟨true, some ()⟩ "2026-01-01T00:00:00.000Z".data
        "example.com".data "login".data).2.2.passwords ≠ some exampleVault := by
  decide

end AlohoPass
